import Mathlib

/-!
Verification of the gesture-control core of the Detector-de-gestos repository.

The Python sources (`control_gestos.py`, `DetectorGestosOptimizado.py`,
`detectorGestos.py`, `control_gestos_mejorado.py`) are shallowly embedded:

* pixel points are pairs of integers;
* the mutable attributes of the `ControladorGestos` class become an explicit
  `Estado` record threaded through the functions;
* floats produced by `np.sqrt` are handled exactly, by carrying squared
  distances (integers) through the state and comparing against the squared
  thresholds; bridge lemmas (`calcular_distancia_lt_const`,
  `calcular_distancia_lt_mul13`, `sqrt_ratio_gt_iff`, `sqrt_ratio_lt_iff`)
  prove each such comparison equivalent to the `Real.sqrt` comparison that
  the source performs on floats;
* Python `int(...)` applied to a quotient of integers is `Int.tdiv`
  (truncation toward zero), Python `//` is `Int.fdiv` (floor);
* OS mouse calls (`pyautogui`) are collected into an action trace.
-/

namespace Gestos

/-- A pixel point, as the `(x, y)` integer tuples the Python sources use. -/
abbrev Punto := ℤ × ℤ

/-- Squared Euclidean distance between two pixel points (an exact integer);
`_calcular_distancia` in the source is its square root. -/
def dist2 (p q : Punto) : ℤ := (p.1 - q.1) ^ 2 + (p.2 - q.2) ^ 2

/-- Embedding of `_calcular_distancia(punto1, punto2)` from the source:
`np.sqrt((p1x - p2x)**2 + (p1y - p2y)**2)`, as an exact real number. -/
noncomputable def calcular_distancia (p q : Punto) : ℝ :=
  Real.sqrt ((dist2 p q : ℤ) : ℝ)

/-- The gesture tags produced per frame (`TipoGesto` in
`DetectorGestosOptimizado.py`; the same strings in `control_gestos.py`).
`ninguno` with a position is what the specification calls `Cursor`. -/
inductive TipoGesto
  | ninguno
  | click
  | arrastrar
  | menu_contextual
  | zoom_in
  | zoom_out
deriving DecidableEq, Repr

/-- The per-frame gesture record (`info_gesto` dict / `InfoGesto` dataclass).
`factor_zoom2` carries the float payload `datos_adicionales['factor_zoom']`
represented by its square, an exact rational (the float is
`√factor_zoom2`); `punto_inicial` is `datos_adicionales['punto_inicial']`
and `puntos_mano` is `datos_adicionales['puntos_mano']` (absent key =
`none`). -/
structure InfoGesto where
  gesto : TipoGesto
  posicion : Option Punto
  factor_zoom2 : Option ℚ
  punto_inicial : Option Punto
  puntos_mano : Option (List Punto)
deriving DecidableEq, Repr

/-- The freshly initialised gesture record
`{'gesto': 'ninguno', 'posicion': None, 'datos_adicionales': {}}`. -/
def infoNinguno : InfoGesto := ⟨.ninguno, none, none, none, none⟩

/-- The two operating modes of the controller. -/
inductive Modo
  | pantalla
  | mesa
deriving DecidableEq, Repr

/-- A 3×3 transformation matrix with exact rational entries, row by row
(`matriz_transformacion`, a numpy 3×3 float array in the source). -/
structure M3 where
  a : ℚ
  b : ℚ
  c : ℚ
  d : ℚ
  e : ℚ
  f : ℚ
  g : ℚ
  h : ℚ
  i : ℚ
deriving DecidableEq, Repr

/-- The identity matrix `np.eye(3)` the controller starts with. -/
def M3.eye : M3 := ⟨1, 0, 0, 0, 1, 0, 0, 0, 1⟩

/-- The atomic OS calls issued through `pyautogui`
(`moveTo`, `mouseDown`, `mouseUp`, `rightClick`, `scroll`). -/
inductive Accion
  | moveTo (p : Punto)
  | mouseDown
  | mouseUp
  | rightClick
  | scroll (n : ℤ)
deriving DecidableEq, Repr

/-- The mutable attributes of the `ControladorGestos` instance
(`control_gestos.py` `__init__`).  `distancia_punos_inicial2` stores the
float `distancia_punos_inicial` represented by its square, an exact
integer (the float is its square root); all other fields are verbatim. -/
structure Estado where
  modo : Modo
  screen_width : ℤ
  screen_height : ℤ
  clicking : Bool
  right_clicking : Bool
  dragging : Bool
  zoom_mode : Bool
  punto_inicial_arrastre : Option Punto
  punos_detectados : List Punto
  distancia_punos_inicial2 : Option ℤ
  haciendo_zoom : Bool
  historial_posiciones : List Punto
  matriz_transformacion : M3
  en_calibracion : Bool
  puntos_calibracion_camara : List Punto
  calibracion_completada : Bool
deriving DecidableEq, Repr

/-- The controller state right after `__init__` (no previous calibration
file), for a 1920×1080 screen in `pantalla` mode. -/
def estadoInicial : Estado where
  modo := .pantalla
  screen_width := 1920
  screen_height := 1080
  clicking := false
  right_clicking := false
  dragging := false
  zoom_mode := false
  punto_inicial_arrastre := none
  punos_detectados := []
  distancia_punos_inicial2 := none
  haciendo_zoom := false
  historial_posiciones := []
  matriz_transformacion := M3.eye
  en_calibracion := false
  puntos_calibracion_camara := []
  calibracion_completada := false

/-- Embedding of `_es_puño_cerrado(puntos)` (`control_gestos.py` lines
565-581, identical in the other variants).  A hand with fewer than 21
points raises `IndexError`, which the source catches and turns into
`False`.  `dedos_doblados` counts fingertips 8/12/16/20 whose y pixel
coordinate is strictly greater than that of bases 5/9/13/17;
`puntas_cerca` counts fingertips whose distance to the palm (point 0) is
less than 1.3 times the distance of base 5 to the palm — compared here on
squares (`calcular_distancia_lt_mul13` proves the comparison is the same
one the source makes on floats). -/
def es_puno_cerrado (puntos : List Punto) : Bool :=
  if puntos.length < 21 then false
  else
    let pts := fun i => puntos.getD i (0, 0)
    let palma := pts 0
    let dedos_doblados : ℕ :=
      (if (pts 8).2 > (pts 5).2 then 1 else 0) +
      (if (pts 12).2 > (pts 9).2 then 1 else 0) +
      (if (pts 16).2 > (pts 13).2 then 1 else 0) +
      (if (pts 20).2 > (pts 17).2 then 1 else 0)
    let puntas_cerca : ℕ :=
      (if 100 * dist2 (pts 8) palma < 169 * dist2 (pts 5) palma then 1 else 0) +
      (if 100 * dist2 (pts 12) palma < 169 * dist2 (pts 5) palma then 1 else 0) +
      (if 100 * dist2 (pts 16) palma < 169 * dist2 (pts 5) palma then 1 else 0) +
      (if 100 * dist2 (pts 20) palma < 169 * dist2 (pts 5) palma then 1 else 0)
    decide (3 ≤ dedos_doblados) && decide (3 ≤ puntas_cerca)

/-- At least three of four propositions hold. -/
def atLeast3of4 (P1 P2 P3 P4 : Prop) : Prop :=
  (P1 ∧ P2 ∧ P3) ∨ (P1 ∧ P2 ∧ P4) ∨ (P1 ∧ P3 ∧ P4) ∨ (P2 ∧ P3 ∧ P4)

/-- The closed-fist predicate exactly as the specification of claim C3
words it, over real Euclidean distances: at least 3 of the fingertips
8/12/16/20 lie strictly below (greater y than) their bases 5/9/13/17, and
at least 3 of them are closer to the palm (point 0) than 1.3 times the
distance from base 5 to the palm. -/
def puno_spec (puntos : List Punto) : Prop :=
  let pts := fun i => puntos.getD i (0, 0)
  let palma := pts 0
  atLeast3of4 ((pts 8).2 > (pts 5).2) ((pts 12).2 > (pts 9).2)
      ((pts 16).2 > (pts 13).2) ((pts 20).2 > (pts 17).2) ∧
  atLeast3of4 (calcular_distancia (pts 8) palma < calcular_distancia (pts 5) palma * 1.3)
      (calcular_distancia (pts 12) palma < calcular_distancia (pts 5) palma * 1.3)
      (calcular_distancia (pts 16) palma < calcular_distancia (pts 5) palma * 1.3)
      (calcular_distancia (pts 20) palma < calcular_distancia (pts 5) palma * 1.3)

/-- Python `int(...)` applied to the exact quotient of two integers
(the float divisions `sum/len` and interpolation in the source):
truncation toward zero. -/
def intDivTrunc (a b : ℤ) : ℤ := Int.tdiv a b

/-- Python `int(...)` applied to an exact rational: truncation toward
zero (`int(3.5) = 3`, `int(-3.5) = -3`). -/
def ratTrunc (q : ℚ) : ℤ := if q < 0 then ⌈q⌉ else ⌊q⌋

/-- Embedding of `int(np.mean(historial))`: the arithmetic mean of the
retained integer samples, truncated toward zero. -/
def intMean (l : List ℤ) : ℤ := intDivTrunc l.sum (l.length : ℤ)

/-- Embedding of `_suavizar_movimiento(x, y)` (`detectorGestos.py` lines
835-848): append the raw sample to each axis history, pop the oldest
entry once the length exceeds the window `suav`
(`suavizado_movimiento`, default 5), and return the truncated mean of
each axis.  Returns the two updated histories and the smoothed point. -/
def suavizar_movimiento (hx hy : List ℤ) (suav : ℕ) (x y : ℤ) :
    (List ℤ × List ℤ) × (ℤ × ℤ) :=
  let hx := hx ++ [x]
  let hy := hy ++ [y]
  let hx := if suav < hx.length then hx.tail else hx
  let hy := if suav < hy.length then hy.tail else hy
  ((hx, hy), (intMean hx, intMean hy))

/-- Iterate `suavizar_movimiento` on the constant sample `(x, y)` `k`
times, returning the final histories and the last smoothed output
(the output component is meaningful for `k ≥ 1`). -/
def iterar_suavizado (hx hy : List ℤ) (suav : ℕ) (x y : ℤ) :
    ℕ → (List ℤ × List ℤ) × (ℤ × ℤ)
  | 0 => ((hx, hy), (x, y))
  | k + 1 =>
      let r := iterar_suavizado hx hy suav x y k
      suavizar_movimiento r.1.1 r.1.2 suav x y

/-- Embedding of `_transformar_coordenadas(punto)` (`control_gestos.py`
lines 547-559, identical in `DetectorGestosOptimizado.py`): build the
homogeneous point `(x, y, 1)`, multiply by the 3×3 matrix, divide by the
third component only when it is nonzero, and truncate the first two
components to integers.  (The `except` fallback that returns `punto` is
unreachable on this arithmetic path: none of the operations raises.) -/
def transformar_coordenadas (m : M3) (punto : Punto) : Punto :=
  let x : ℚ := m.a * punto.1 + m.b * punto.2 + m.c
  let y : ℚ := m.d * punto.1 + m.e * punto.2 + m.f
  let w : ℚ := m.g * punto.1 + m.h * punto.2 + m.i
  if w ≠ 0 then (ratTrunc (x / w), ratTrunc (y / w))
  else (ratTrunc x, ratTrunc y)

/-- The matrix of `M3` as a Mathlib matrix, row-major. -/
def M3.toMatrix (m : M3) : Matrix (Fin 3) (Fin 3) ℚ :=
  Matrix.of fun r c =>
    match r, c with
    | 0, 0 => m.a
    | 0, 1 => m.b
    | 0, 2 => m.c
    | 1, 0 => m.d
    | 1, 1 => m.e
    | 1, 2 => m.f
    | 2, 0 => m.g
    | 2, 1 => m.h
    | 2, 2 => m.i

/-- The homogeneous camera-space vector `(px, py, 1)`. -/
def homog (p : Punto) : Fin 3 → ℚ := ![(p.1 : ℚ), (p.2 : ℚ), 1]

/-- Embedding of `np.interp(v, [lo, hi], [0, target])` followed by
`int(...)`: clamp outside `[lo, hi]`, linear in between, truncated
toward zero. -/
def interp (v lo hi target : ℤ) : ℤ :=
  if v ≤ lo then 0
  else if hi ≤ v then target
  else intDivTrunc ((v - lo) * target) (hi - lo)

/-- Embedding of the cursor-position block of `detectar_gestos_una_mano`
(`control_gestos.py` lines 209-237): in `pantalla` mode map the thumb tip
through `np.interp` with 100-pixel margins, push it onto
`historial_posiciones` (popping the oldest entry beyond the window of 5)
and take the truncated per-axis mean; in `mesa` mode apply the projective
transform when calibrated, else return the raw thumb tip.  Returns the
updated state and the cursor position. -/
def calcular_posicion (st : Estado) (pulgar_punta : Punto) (ancho altura : ℤ) :
    Estado × Punto :=
  if st.modo = .pantalla then
    let sx := interp pulgar_punta.1 100 (ancho - 100) st.screen_width
    let sy := interp pulgar_punta.2 100 (altura - 100) st.screen_height
    let hist := st.historial_posiciones ++ [(sx, sy)]
    let hist := if 5 < hist.length then hist.tail else hist
    let px := intDivTrunc (hist.map Prod.fst).sum (hist.length : ℤ)
    let py := intDivTrunc (hist.map Prod.snd).sum (hist.length : ℤ)
    ({st with historial_posiciones := hist}, (px, py))
  else
    (st, if st.calibracion_completada then
            transformar_coordenadas st.matriz_transformacion pulgar_punta
          else pulgar_punta)

/-- Embedding of `detectar_gestos_una_mano(puntos, frame, ancho, altura)`
(`control_gestos.py` lines 194-294).  A hand with fewer than 13 points
raises `IndexError` before any state mutation; the source catches it and
returns the fresh `ninguno` record.  The three gesture tests are written
exactly in source order — three independent `if` statements, so a later
assignment overwrites an earlier one — with each float distance
comparison `< 40` carried out on squares (`< 1600`;
`calcular_distancia_lt_const` proves the equivalence). -/
def detectar_gestos_una_mano (st : Estado) (puntos : List Punto)
    (ancho altura : ℤ) : Estado × InfoGesto :=
  if puntos.length < 13 then (st, infoNinguno)
  else
    let pts := fun i => puntos.getD i (0, 0)
    let indice_punta := pts 8
    let pulgar_punta := pts 4
    let medio_punta := pts 12
    let r := calcular_posicion st pulgar_punta ancho altura
    let st := r.1
    let posicion_cursor := r.2
    let info : InfoGesto :=
      ⟨.ninguno, some posicion_cursor, none, none, some puntos⟩
    let d2_pulgar_indice := dist2 pulgar_punta indice_punta
    let d2_pulgar_medio := dist2 pulgar_punta medio_punta
    let r2 : Estado × InfoGesto :=
      if d2_pulgar_indice < 1600 then
        if st.dragging || st.clicking then
          (st, {info with gesto := .arrastrar,
                          punto_inicial := st.punto_inicial_arrastre})
        else
          ({st with punto_inicial_arrastre := some posicion_cursor},
           {info with gesto := .click})
      else
        ({st with punto_inicial_arrastre := none}, info)
    let st := r2.1
    let info := r2.2
    let info :=
      if d2_pulgar_medio < 1600 then {info with gesto := .menu_contextual}
      else info
    let info :=
      if es_puno_cerrado puntos && !st.zoom_mode then
        {info with gesto := .click}
      else info
    (st, info)

/-- Embedding of `_resetear_zoom()` (`control_gestos.py` lines 367-371). -/
def resetear_zoom (st : Estado) : Estado :=
  {st with zoom_mode := false, haciendo_zoom := false,
           distancia_punos_inicial2 := none}

/-- Embedding of `_procesar_zoom(frame, altura, info_gesto)`
(`control_gestos.py` lines 332-365) acting on the two detected fist
centres `p1, p2`.  Baseline and current distances are floats in the
source; here their squares are carried exactly, and the two float
comparisons `actual > inicial * 1.5` and `actual < inicial * 0.7` become
`4*d2 > 9*b2` and `100*d2 < 49*b2` (`sqrt_ratio_gt_iff`,
`sqrt_ratio_lt_iff`).  The float truthiness test
`if self.distancia_punos_inicial:` is false exactly when the stored value
is `None` or `0.0`, i.e. when the squared baseline is `none` or `0`.  The
float payload `factor_zoom = actual / inicial` is carried by its square
`d2 / b2`. -/
def procesar_zoom (st : Estado) (p1 p2 : Punto) (info : InfoGesto) :
    Estado × InfoGesto :=
  let st := {st with zoom_mode := true}
  let d2 := dist2 p1 p2
  let st :=
    if !st.haciendo_zoom then
      {st with distancia_punos_inicial2 := some d2, haciendo_zoom := true}
    else st
  let punto_medio : Punto :=
    (Int.fdiv (p1.1 + p2.1) 2, Int.fdiv (p1.2 + p2.2) 2)
  match st.distancia_punos_inicial2 with
  | none => (st, info)
  | some b2 =>
      if b2 = 0 then (st, info)
      else if 4 * d2 > 9 * b2 then
        (st, {info with gesto := .zoom_in, posicion := some punto_medio,
                        factor_zoom2 := some ((d2 : ℚ) / (b2 : ℚ))})
      else if 100 * d2 < 49 * b2 then
        (st, {info with gesto := .zoom_out, posicion := some punto_medio,
                        factor_zoom2 := some ((d2 : ℚ) / (b2 : ℚ))})
      else (st, info)

/-- Embedding of `detectar_gestos_dos_manos(results, ...)`
(`control_gestos.py` lines 296-330): collect the palm centre (point 0)
of every hand that passes `_es_puño_cerrado`, in detection order, into
`punos_detectados`; with exactly two fists process the zoom, otherwise
reset the zoom state. -/
def detectar_gestos_dos_manos (st : Estado) (manos : List (List Punto))
    (info : InfoGesto) : Estado × InfoGesto :=
  let punos := (manos.filter es_puno_cerrado).map (fun m => m.headD (0, 0))
  let st := {st with punos_detectados := punos}
  match punos with
  | [p1, p2] => procesar_zoom st p1 p2 info
  | _ => (resetear_zoom st, info)

/-- Embedding of `realizar_accion_mouse(info_gesto)` (`control_gestos.py`
lines 465-506, `_realizar_accion_mouse` in
`DetectorGestosOptimizado.py`): with no position, do nothing; otherwise
clamp the position to the screen, move the cursor, and run the
`if/elif/.../else` ladder over the gesture tag.  Returns the updated
latches and the trace of `pyautogui` calls in issue order. -/
def realizar_accion_mouse (st : Estado) (info : InfoGesto) :
    Estado × List Accion :=
  match info.posicion with
  | none => (st, [])
  | some pos =>
      let x := max 0 (min pos.1 st.screen_width)
      let y := max 0 (min pos.2 st.screen_height)
      let mv : List Accion := [.moveTo (x, y)]
      match info.gesto with
      | .click =>
          if !st.clicking then
            ({st with clicking := true}, mv ++ [.mouseDown])
          else (st, mv)
      | .arrastrar =>
          if !st.dragging then ({st with dragging := true}, mv)
          else (st, mv)
      | .menu_contextual =>
          if !st.right_clicking then
            ({st with right_clicking := true}, mv ++ [.rightClick])
          else (st, mv)
      | .zoom_in => (st, mv ++ [.scroll 10])
      | .zoom_out => (st, mv ++ [.scroll (-10)])
      | .ninguno =>
          if st.clicking || st.dragging then
            ({st with clicking := false, dragging := false,
                      right_clicking := false}, mv ++ [.mouseUp])
          else ({st with right_clicking := false}, mv)

/-- Run `realizar_accion_mouse` over a sequence of per-frame gesture
records, concatenating the traces of OS calls. -/
def ejecutar_acciones (st : Estado) (l : List InfoGesto) :
    Estado × List Accion :=
  match l with
  | [] => (st, [])
  | i :: rest =>
      let r := realizar_accion_mouse st i
      let r2 := ejecutar_acciones r.1 rest
      (r2.1, r.2 ++ r2.2)

/-- The one-hand tail of `procesar_frame` (`control_gestos.py` lines
167-188): classify the hand, then in `pantalla` mode with a position
dispatch the mouse actions. -/
def procesar_una_mano_y_accion (st : Estado) (puntos : List Punto)
    (ancho altura : ℤ) : Estado × InfoGesto × List Accion :=
  let r2 := detectar_gestos_una_mano st puntos ancho altura
  if r2.1.modo = .pantalla ∧ r2.2.posicion.isSome then
    let r3 := realizar_accion_mouse r2.1 r2.2
    (r3.1, r2.2, r3.2)
  else (r2.1, r2.2, [])

/-- Embedding of the gesture path of `procesar_frame(frame)`
(`control_gestos.py` lines 138-188, after the calibration branch):
with no detected hands return the fresh `ninguno` record untouched; with
exactly two hands run the two-hand detector and return immediately on a
zoom event (without dispatching any mouse action, as the source does);
otherwise classify the first detected hand and, in `pantalla` mode with a
position, dispatch the mouse actions.  `manos` is the list of per-hand
21-point landmark lists produced by the external detector. -/
def procesar_frame (st : Estado) (manos : List (List Punto))
    (ancho altura : ℤ) : Estado × InfoGesto × List Accion :=
  if manos.length = 0 then (st, infoNinguno, [])
  else
    let r1 :=
      if manos.length = 2 then detectar_gestos_dos_manos st manos infoNinguno
      else (st, infoNinguno)
    if r1.2.gesto = .zoom_in ∨ r1.2.gesto = .zoom_out then (r1.1, r1.2, [])
    else procesar_una_mano_y_accion r1.1 (manos.headD []) ancho altura

/-- The controller attributes the calibration-completion path touches
(`matriz_transformacion`, `en_calibracion`, `calibracion_completada` —
the `CalibrationState` of the specification).  The matrix slot is an
`Option` because the Python attribute genuinely holds `None` after a
failed solve: for a degenerate or collinear point set
`cv2.findHomography` does not raise — its documented behaviour is to
return `None` — and the tuple assignment in `calibrar_mesa` stores that
`None` into the attribute. -/
structure CalibEstado where
  matriz : Option M3
  en_calibracion : Bool
  calibracion_completada : Bool
deriving DecidableEq, Repr

/-- A calibration session holding the identity matrix, mid-capture, not
yet marked completed. -/
def calibDemo : CalibEstado := ⟨some M3.eye, true, false⟩

/-- Embedding of `calibrar_mesa(puntos_camara, puntos_proyeccion)`
(`control_gestos.py` lines 532-545).  The external solver
`cv2.findHomography` is modelled at its boundary by its outcome:
`some m` on success, `none` for a degenerate/collinear point set (the
solver returns `None` rather than raising).  In both cases the tuple
assignment `self.matriz_transformacion, _ = cv2.findHomography(...)`
stores the outcome into the attribute — overwriting the previously held
matrix even on failure — and `np.save` then persists exactly that value
(numpy pickles the `None` object array without error), so the `except`
handler is not reached on this path.  The returned list is the trace of
persisted values. -/
def calibrar_mesa (st : CalibEstado) (solved : Option M3) :
    CalibEstado × List (Option M3) :=
  ({st with matriz := solved}, [solved])

/-- Embedding of the calibration-completion path: once the fourth point is
captured, `procesar_calibracion` calls `calibrar_mesa` and returns
`True` unconditionally (`control_gestos.py` lines 448-457), whereupon
`procesar_frame` clears `en_calibracion` and sets
`calibracion_completada = True` (lines 124-129) — whether or not the
solve produced a matrix. -/
def finalizar_calibracion (st : CalibEstado) (solved : Option M3) :
    CalibEstado × List (Option M3) :=
  let r := calibrar_mesa st solved
  ({r.1 with en_calibracion := false, calibracion_completada := true}, r.2)

/-- One axis of a `_suavizar_movimiento` step: append the sample and pop
the oldest entry once the length exceeds the window. -/
def pushAxis (suav : ℕ) (h : List ℤ) (x : ℤ) : List ℤ :=
  if suav < (h ++ [x]).length then (h ++ [x]).tail else h ++ [x]

/-- Iterate `pushAxis` on a constant sample. -/
def iterAxis (suav : ℕ) (h : List ℤ) (x : ℤ) : ℕ → List ℤ
  | 0 => h
  | n + 1 => pushAxis suav (iterAxis suav h x n) x

/-- A concrete 21-point hand forming a closed fist: the four fingertips
8/12/16/20 sit 10 pixels below their bases 5/9/13/17 and close to the
palm at the origin; the thumb tip (index 4) is far away at `(300, 300)`
so the hand pinches nothing. -/
def manoPuno : List Punto :=
  [(0, 0), (0, 0), (0, 0), (0, 0), (300, 300),
   (0, 100), (0, 0), (0, 0), (0, 110),
   (5, 100), (0, 0), (0, 0), (5, 110),
   (10, 100), (0, 0), (0, 0), (10, 110),
   (15, 100), (0, 0), (0, 0), (15, 110)]

/-- A concrete 21-point open hand: every landmark at the origin, so no
fingertip is strictly below its base and the fist test fails. -/
def manoAbierta : List Punto := List.replicate 21 ((0, 0) : Punto)

/-- A concrete 21-point hand holding both pinches at once: thumb tip
`(100,100)`, index tip `(110,105)` (distance `√125 < 40`) and middle tip
`(105,95)` (distance `√50 < 40`), while the four bases sit at
`(0, 200)` below the fingertips so the fist test fails. -/
def manoDosPinzas : List Punto :=
  [(0, 0), (0, 0), (0, 0), (0, 0), (100, 100),
   (0, 200), (0, 0), (0, 0), (110, 105),
   (0, 200), (0, 0), (0, 0), (105, 95),
   (0, 200), (0, 0), (0, 0), (0, 0),
   (0, 200), (0, 0), (0, 0), (0, 0)]

/-- A concrete `click` frame record with a position. -/
def infoClickDemo : InfoGesto := ⟨.click, some (5, 5), none, none, none⟩

/-- A concrete `menu_contextual` (right-click) frame record with a
position. -/
def infoMenuDemo : InfoGesto := ⟨.menu_contextual, some (5, 5), none, none, none⟩

/-- A concrete `ninguno` (cursor-only) frame record with a position. -/
def infoSueltaDemo : InfoGesto := ⟨.ninguno, some (6, 6), none, none, none⟩

/-- A state in the middle of an active zoom session: baseline squared
distance 40000 (i.e. baseline distance 200). -/
def estadoZoom : Estado :=
  {estadoInicial with zoom_mode := true, haciendo_zoom := true,
                      distancia_punos_inicial2 := some 40000}

theorem dist2_nonneg (p q : Punto) : 0 ≤ dist2 p q := by
  have h1 : (0 : ℤ) ≤ (p.1 - q.1) ^ 2 := sq_nonneg _
  have h2 : (0 : ℤ) ≤ (p.2 - q.2) ^ 2 := sq_nonneg _
  unfold dist2; omega

theorem calcular_distancia_nonneg (p q : Punto) : 0 ≤ calcular_distancia p q :=
  Real.sqrt_nonneg _

/-- Bridge lemma: the float comparison `_calcular_distancia(p, q) < c` the
source performs (for a positive integer threshold `c`, e.g. the 40-pixel
pinch threshold) is equivalent to the exact integer comparison on squares. -/
theorem calcular_distancia_lt_const (p q : Punto) (c : ℤ) (hc : 0 < c) :
    calcular_distancia p q < (c : ℝ) ↔ dist2 p q < c ^ 2 := by
  unfold calcular_distancia
  rw [Real.sqrt_lt' (by exact_mod_cast hc)]
  constructor
  · intro h; exact_mod_cast h
  · intro h; exact_mod_cast h

/-- Bridge lemma: the float comparison
`_calcular_distancia(a, b) < _calcular_distancia(c, b) * 1.3` used by
`_es_puño_cerrado` is equivalent to `100 * dist2 a b < 169 * dist2 c b`. -/
theorem calcular_distancia_lt_mul13 (a b c : Punto) :
    calcular_distancia a b < calcular_distancia c b * 1.3 ↔
      100 * dist2 a b < 169 * dist2 c b := by
  unfold calcular_distancia
  have h13 : (1.3 : ℝ) = Real.sqrt 1.69 := by
    rw [show (1.69 : ℝ) = 1.3 ^ 2 by norm_num, Real.sqrt_sq (by norm_num)]
  rw [h13, ← Real.sqrt_mul (by exact_mod_cast dist2_nonneg c b)]
  rw [Real.sqrt_lt_sqrt_iff (by exact_mod_cast dist2_nonneg a b)]
  have hcast : ((dist2 a b : ℤ) : ℝ) < (dist2 c b : ℤ) * 1.69 ↔
      ((100 * dist2 a b : ℤ) : ℝ) < ((169 * dist2 c b : ℤ) : ℝ) := by
    push_cast; constructor <;> intro h <;> nlinarith
  rw [hcast]
  exact ⟨fun h => by exact_mod_cast h, fun h => by exact_mod_cast h⟩

/-- Bridge lemma: with baseline distance `√b2 > 0` and current distance
`√d2`, the float comparison `distancia_actual > distancia_inicial * 1.5`
of `_procesar_zoom` (equivalently, ratio `> 1.5`) is the exact integer
comparison `4 * d2 > 9 * b2`. -/
theorem sqrt_ratio_gt_iff (d2 b2 : ℤ) (hd : 0 ≤ d2) (hb : 0 < b2) :
    Real.sqrt (d2 : ℝ) > Real.sqrt (b2 : ℝ) * 1.5 ↔ 4 * d2 > 9 * b2 := by
  have h15 : (1.5 : ℝ) = Real.sqrt 2.25 := by
    rw [show (2.25 : ℝ) = 1.5 ^ 2 by norm_num, Real.sqrt_sq (by norm_num)]
  rw [h15, ← Real.sqrt_mul (by exact_mod_cast hb.le)]
  rw [gt_iff_lt, Real.sqrt_lt_sqrt_iff (by positivity)]
  constructor
  · intro h
    have : (9 * b2 : ℝ) < 4 * d2 := by push_cast at h ⊢; nlinarith
    exact_mod_cast this
  · intro h
    have : ((9 * b2 : ℤ) : ℝ) < ((4 * d2 : ℤ) : ℝ) := by exact_mod_cast h
    push_cast at this ⊢; nlinarith

/-- Bridge lemma: the float comparison
`distancia_actual < distancia_inicial * 0.7` of `_procesar_zoom`
(equivalently, ratio `< 0.7`) is the exact integer comparison
`100 * d2 < 49 * b2`. -/
theorem sqrt_ratio_lt_iff (d2 b2 : ℤ) (hd : 0 ≤ d2) (hb : 0 < b2) :
    Real.sqrt (d2 : ℝ) < Real.sqrt (b2 : ℝ) * 0.7 ↔ 100 * d2 < 49 * b2 := by
  have h07 : (0.7 : ℝ) = Real.sqrt 0.49 := by
    rw [show (0.49 : ℝ) = 0.7 ^ 2 by norm_num, Real.sqrt_sq (by norm_num)]
  rw [h07, ← Real.sqrt_mul (by exact_mod_cast hb.le)]
  rw [Real.sqrt_lt_sqrt_iff (by exact_mod_cast hd)]
  constructor
  · intro h
    have : (100 * d2 : ℝ) < 49 * b2 := by push_cast at h ⊢; nlinarith
    exact_mod_cast this
  · intro h
    have : ((100 * d2 : ℤ) : ℝ) < ((49 * b2 : ℤ) : ℝ) := by exact_mod_cast h
    push_cast at this ⊢; nlinarith

theorem count4_ge3_iff (P1 P2 P3 P4 : Prop)
    [Decidable P1] [Decidable P2] [Decidable P3] [Decidable P4] :
    3 ≤ ((if P1 then 1 else 0) + (if P2 then 1 else 0) +
         (if P3 then 1 else 0) + (if P4 then 1 else 0) : ℕ) ↔
      atLeast3of4 P1 P2 P3 P4 := by
  by_cases h1 : P1 <;> by_cases h2 : P2 <;> by_cases h3 : P3 <;> by_cases h4 : P4 <;>
    simp_all [atLeast3of4]

theorem atLeast3of4_congr {P1 P2 P3 P4 Q1 Q2 Q3 Q4 : Prop}
    (h1 : P1 ↔ Q1) (h2 : P2 ↔ Q2) (h3 : P3 ↔ Q3) (h4 : P4 ↔ Q4) :
    atLeast3of4 P1 P2 P3 P4 ↔ atLeast3of4 Q1 Q2 Q3 Q4 := by
  unfold atLeast3of4; rw [h1, h2, h3, h4]

/-- C10: a frame with zero detected hands returns the fresh `ninguno`
record with no position, issues no OS action, and leaves the whole state
— click/drag/right-click latches, drag anchor, smoothing history and
zoom baseline included — exactly as it was, so the smoothing history is
in particular not cleared while the hand is lost. -/
theorem C10_frame_sin_manos (st : Estado) (ancho altura : ℤ) :
    procesar_frame st [] ancho altura = (st, infoNinguno, []) := rfl

/-- C7 (amended): the coordinate mapping computes the homogeneous product
`M·(px, py, 1)`; when the third component `w` is nonzero it returns the
perspective-divided point truncated to integers, and when `w = 0` it
returns the integer truncation of the first two components of the raw,
undivided product — not the input point. -/
theorem C7_transformar (m : M3) (p : Punto) :
    (((M3.toMatrix m).mulVec (homog p)) 2 ≠ 0 →
      transformar_coordenadas m p =
        (ratTrunc (((M3.toMatrix m).mulVec (homog p)) 0 /
                    ((M3.toMatrix m).mulVec (homog p)) 2),
         ratTrunc (((M3.toMatrix m).mulVec (homog p)) 1 /
                    ((M3.toMatrix m).mulVec (homog p)) 2))) ∧
    (((M3.toMatrix m).mulVec (homog p)) 2 = 0 →
      transformar_coordenadas m p =
        (ratTrunc (((M3.toMatrix m).mulVec (homog p)) 0),
         ratTrunc (((M3.toMatrix m).mulVec (homog p)) 1))) := by
  have h0 : ((M3.toMatrix m).mulVec (homog p)) 0 =
      m.a * (p.1 : ℚ) + m.b * (p.2 : ℚ) + m.c := by
    simp [Matrix.mulVec, Matrix.dotProduct, Fin.sum_univ_three, M3.toMatrix,
      homog]
  have h1 : ((M3.toMatrix m).mulVec (homog p)) 1 =
      m.d * (p.1 : ℚ) + m.e * (p.2 : ℚ) + m.f := by
    simp [Matrix.mulVec, Matrix.dotProduct, Fin.sum_univ_three, M3.toMatrix,
      homog]
  have h2 : ((M3.toMatrix m).mulVec (homog p)) 2 =
      m.g * (p.1 : ℚ) + m.h * (p.2 : ℚ) + m.i := by
    simp [Matrix.mulVec, Matrix.dotProduct, Fin.sum_univ_three, M3.toMatrix,
      homog]
  rw [h0, h1, h2]
  unfold transformar_coordenadas
  constructor
  · intro hw; rw [if_pos hw]
  · intro hw; rw [if_neg (by simpa using hw)]

/-- C7 counterexample: for the matrix with rows `(2,0,0)`, `(0,2,0)`,
`(0,0,0)` and the input point `(3,4)`, the homogeneous product is
`(6,8,0)` — so `w = 0` — yet the mapping returns `(6,8)`, not the
untransformed input point `(3,4)` the claim promises. -/
theorem C7_counterexample :
    ((M3.mk 2 0 0 0 2 0 0 0 0).toMatrix.mulVec (homog (3, 4))) 2 = 0 ∧
    transformar_coordenadas (M3.mk 2 0 0 0 2 0 0 0 0) (3, 4) = (6, 8) ∧
    transformar_coordenadas (M3.mk 2 0 0 0 2 0 0 0 0) (3, 4) ≠ (3, 4) := by
  refine ⟨?_, ?_, ?_⟩
  · simp [Matrix.mulVec, Matrix.dotProduct, Fin.sum_univ_three, M3.toMatrix,
      homog]
  · norm_num [transformar_coordenadas, ratTrunc]
  · norm_num [transformar_coordenadas, ratTrunc]

/-- C7 witness: the nonzero-`w` branch of `C7_transformar` evaluated on
the identity matrix at `(3,4)`, where `w = 1` and the map returns the
input unchanged. -/
theorem C7_witness :
    ((M3.eye.toMatrix.mulVec (homog (3, 4))) 2 ≠ 0 →
      transformar_coordenadas M3.eye (3, 4) =
        (ratTrunc ((M3.eye.toMatrix.mulVec (homog (3, 4))) 0 /
                    (M3.eye.toMatrix.mulVec (homog (3, 4))) 2),
         ratTrunc ((M3.eye.toMatrix.mulVec (homog (3, 4))) 1 /
                    (M3.eye.toMatrix.mulVec (homog (3, 4))) 2))) ∧
    (M3.eye.toMatrix.mulVec (homog (3, 4))) 2 ≠ 0 :=
  ⟨(C7_transformar M3.eye (3, 4)).1, by
    simp [Matrix.mulVec, Matrix.dotProduct, Fin.sum_univ_three, M3.toMatrix,
      homog, M3.eye]⟩

/-- C8 (amended): the calibration-completion path treats solver failure
and success identically: the solver outcome — the new matrix on success,
`None` for a degenerate point set — is stored over the previously held
matrix and is persisted to storage, the session leaves calibration, and
the calibration-completed flag is set.  No failure is detected or
reported and the session never returns to the uncalibrated idle state;
only on success is an actual matrix adopted. -/
theorem C8_calibracion (st : CalibEstado) (solved : Option M3) :
    (finalizar_calibracion st solved).1.matriz = solved ∧
    (finalizar_calibracion st solved).2 = [solved] ∧
    (finalizar_calibracion st solved).1.calibracion_completada = true ∧
    (finalizar_calibracion st solved).1.en_calibracion = false :=
  ⟨rfl, rfl, rfl, rfl⟩

/-- C8 counterexample: from a session holding the identity matrix with
the completed flag unset, a failed solve (the solver returns `None` on
degenerate points) overwrites the held matrix with `None`, persists that
`None`, and sets the calibration-completed flag — contradicting the
claim that on failure the matrix and flag are unchanged, nothing is
persisted, and the session returns to the uncalibrated idle state with
no matrix adopted. -/
theorem C8_counterexample :
    calibDemo.matriz = some M3.eye ∧
    calibDemo.calibracion_completada = false ∧
    (finalizar_calibracion calibDemo none).1.matriz = none ∧
    (finalizar_calibracion calibDemo none).2 = [none] ∧
    (finalizar_calibracion calibDemo none).1.calibracion_completada =
      true ∧
    (finalizar_calibracion calibDemo none).1.en_calibracion = false :=
  ⟨rfl, rfl, rfl, rfl, rfl, rfl⟩

/-- C3: for a hand with all 21 landmarks, `_es_puño_cerrado` returns true
iff at least 3 of the fingertips 8/12/16/20 lie strictly lower in the
image (greater y) than their bases 5/9/13/17, and at least 3 of them
have Euclidean distance to the palm (landmark 0) strictly less than 1.3
times the distance from base 5 to the palm. -/
theorem C3_puno_cerrado (puntos : List Punto) (h21 : puntos.length = 21) :
    es_puno_cerrado puntos = true ↔ puno_spec puntos := by
  have hlt : ¬ puntos.length < 21 := by omega
  unfold es_puno_cerrado puno_spec
  simp only [hlt, if_false, Bool.and_eq_true, decide_eq_true_eq]
  rw [count4_ge3_iff, count4_ge3_iff]
  exact and_congr Iff.rfl
    (atLeast3of4_congr
      (calcular_distancia_lt_mul13 _ _ _).symm
      (calcular_distancia_lt_mul13 _ _ _).symm
      (calcular_distancia_lt_mul13 _ _ _).symm
      (calcular_distancia_lt_mul13 _ _ _).symm)

/-- C3 witness: the concrete fist hand `manoPuno` has 21 landmarks, the
source predicate accepts it, and the spec-level characterisation holds
of it. -/
theorem C3_witness :
    manoPuno.length = 21 ∧ es_puno_cerrado manoPuno = true ∧
      puno_spec manoPuno :=
  ⟨by decide, by decide, (C3_puno_cerrado manoPuno (by decide)).mp (by decide)⟩

/-- C2: in an active zoom session with recorded baseline distance
`b = √b2 > 0` and current inter-fist distance `d`, a ratio `d/b > 1.5`
emits `zoom_in` carrying the midpoint and a payload whose real value is
exactly `d/b`; a ratio `d/b < 0.7` emits `zoom_out` symmetrically; and
any ratio in the closed band `[0.7, 1.5]` leaves the gesture record
untouched — no zoom event. -/
theorem C2_zoom_umbral (st : Estado) (p1 p2 : Punto) (info : InfoGesto)
    (b2 : ℤ)
    (hz : st.haciendo_zoom = true)
    (hb : st.distancia_punos_inicial2 = some b2)
    (hbpos : 0 < Real.sqrt (b2 : ℝ)) :
    (calcular_distancia p1 p2 / Real.sqrt (b2 : ℝ) > 1.5 →
      (procesar_zoom st p1 p2 info).2 =
        {info with gesto := .zoom_in,
                   posicion := some (Int.fdiv (p1.1 + p2.1) 2,
                                     Int.fdiv (p1.2 + p2.2) 2),
                   factor_zoom2 := some ((dist2 p1 p2 : ℚ) / (b2 : ℚ))} ∧
      Real.sqrt (((dist2 p1 p2 : ℚ) / (b2 : ℚ) : ℚ) : ℝ) =
        calcular_distancia p1 p2 / Real.sqrt (b2 : ℝ)) ∧
    (calcular_distancia p1 p2 / Real.sqrt (b2 : ℝ) < 0.7 →
      (procesar_zoom st p1 p2 info).2 =
        {info with gesto := .zoom_out,
                   posicion := some (Int.fdiv (p1.1 + p2.1) 2,
                                     Int.fdiv (p1.2 + p2.2) 2),
                   factor_zoom2 := some ((dist2 p1 p2 : ℚ) / (b2 : ℚ))} ∧
      Real.sqrt (((dist2 p1 p2 : ℚ) / (b2 : ℚ) : ℚ) : ℝ) =
        calcular_distancia p1 p2 / Real.sqrt (b2 : ℝ)) ∧
    (0.7 ≤ calcular_distancia p1 p2 / Real.sqrt (b2 : ℝ) →
      calcular_distancia p1 p2 / Real.sqrt (b2 : ℝ) ≤ 1.5 →
      (procesar_zoom st p1 p2 info).2 = info) := by
  have hb2 : (0 : ℤ) < b2 := by
    have h := Real.sqrt_pos.mp hbpos
    exact_mod_cast h
  have hd2 : (0 : ℤ) ≤ dist2 p1 p2 := dist2_nonneg p1 p2
  have hbne : ¬ b2 = 0 := by omega
  have hpay : Real.sqrt (((dist2 p1 p2 : ℚ) / (b2 : ℚ) : ℚ) : ℝ) =
      calcular_distancia p1 p2 / Real.sqrt (b2 : ℝ) := by
    have hcast : (((dist2 p1 p2 : ℚ) / (b2 : ℚ) : ℚ) : ℝ) =
        ((dist2 p1 p2 : ℤ) : ℝ) / ((b2 : ℤ) : ℝ) := by push_cast; ring
    rw [hcast, Real.sqrt_div (by exact_mod_cast hd2)]
    rfl
  have hgt_iff : calcular_distancia p1 p2 / Real.sqrt (b2 : ℝ) > 1.5 ↔
      4 * dist2 p1 p2 > 9 * b2 := by
    rw [← sqrt_ratio_gt_iff (dist2 p1 p2) b2 hd2 hb2]
    unfold calcular_distancia
    rw [gt_iff_lt, lt_div_iff hbpos, gt_iff_lt]
    constructor <;> intro h <;> linarith
  have hlt_iff : calcular_distancia p1 p2 / Real.sqrt (b2 : ℝ) < 0.7 ↔
      100 * dist2 p1 p2 < 49 * b2 := by
    rw [← sqrt_ratio_lt_iff (dist2 p1 p2) b2 hd2 hb2]
    unfold calcular_distancia
    rw [div_lt_iff hbpos]
    constructor <;> intro h <;> linarith
  refine ⟨?_, ?_, ?_⟩
  · intro hgt
    have hint : 4 * dist2 p1 p2 > 9 * b2 := hgt_iff.mp hgt
    refine ⟨?_, hpay⟩
    simp [procesar_zoom, hz, hb, hbne, hint]
  · intro hlt
    have hint : 100 * dist2 p1 p2 < 49 * b2 := hlt_iff.mp hlt
    have hnot : ¬ 4 * dist2 p1 p2 > 9 * b2 := by omega
    refine ⟨?_, hpay⟩
    simp [procesar_zoom, hz, hb, hbne, hint, hnot]
  · intro h07 h15
    have hnotgt : ¬ 4 * dist2 p1 p2 > 9 * b2 := by
      intro h; exact absurd (hgt_iff.mpr h) (by linarith)
    have hnotlt : ¬ 100 * dist2 p1 p2 < 49 * b2 := by
      intro h; exact absurd (hlt_iff.mpr h) (by linarith)
    simp [procesar_zoom, hz, hb, hbne, hnotgt, hnotlt]

/-- C2 witness: the concrete session `estadoZoom` (baseline distance 200)
with fists at `(0,0)` and `(320,0)` — current distance 320, ratio 1.6 —
satisfies the hypotheses of `C2_zoom_umbral` and emits `zoom_in`. -/
theorem C2_witness :
    estadoZoom.haciendo_zoom = true ∧
    estadoZoom.distancia_punos_inicial2 = some 40000 ∧
    0 < Real.sqrt ((40000 : ℤ) : ℝ) ∧
    calcular_distancia (0, 0) (320, 0) / Real.sqrt ((40000 : ℤ) : ℝ) > 1.5 ∧
    (procesar_zoom estadoZoom (0, 0) (320, 0) infoNinguno).2.gesto =
      .zoom_in := by
  have hsq : Real.sqrt ((40000 : ℤ) : ℝ) = 200 := by
    rw [show (((40000 : ℤ) : ℝ)) = 200 ^ 2 by norm_num,
      Real.sqrt_sq (by norm_num)]
  have hb : (0 : ℝ) < Real.sqrt ((40000 : ℤ) : ℝ) := by rw [hsq]; norm_num
  have hd : calcular_distancia (0, 0) (320, 0) = 320 := by
    unfold calcular_distancia
    rw [show ((dist2 (0, 0) (320, 0) : ℤ) : ℝ) = 320 ^ 2 by
      norm_num [dist2], Real.sqrt_sq (by norm_num)]
  have hr : calcular_distancia (0, 0) (320, 0) /
      Real.sqrt ((40000 : ℤ) : ℝ) > 1.5 := by
    rw [hd, hsq]; norm_num
  refine ⟨rfl, rfl, hb, hr, ?_⟩
  rw [((C2_zoom_umbral estadoZoom (0, 0) (320, 0) infoNinguno 40000
    rfl rfl hb).1 hr).1]

theorem suavizar_movimiento_eq (hx hy : List ℤ) (suav : ℕ) (x y : ℤ) :
    suavizar_movimiento hx hy suav x y =
      ((pushAxis suav hx x, pushAxis suav hy y),
       (intMean (pushAxis suav hx x), intMean (pushAxis suav hy y))) := rfl

theorem iterar_suavizado_fst (hx hy : List ℤ) (suav : ℕ) (x y : ℤ)
    (k : ℕ) :
    (iterar_suavizado hx hy suav x y k).1 =
      (iterAxis suav hx x k, iterAxis suav hy y k) := by
  induction k with
  | zero => rfl
  | succ n ih =>
      simp [iterar_suavizado, suavizar_movimiento_eq, ih, iterAxis]

theorem iterar_suavizado_snd (hx hy : List ℤ) (suav : ℕ) (x y : ℤ)
    (n : ℕ) :
    (iterar_suavizado hx hy suav x y (n + 1)).2 =
      (intMean (iterAxis suav hx x (n + 1)),
       intMean (iterAxis suav hy y (n + 1))) := by
  simp [iterar_suavizado, suavizar_movimiento_eq, iterar_suavizado_fst,
    iterAxis]

theorem pushAxis_length_le (suav : ℕ) (h : List ℤ) (x : ℤ)
    (hs : 1 ≤ suav) (hl : h.length ≤ suav) :
    (pushAxis suav h x).length ≤ suav := by
  unfold pushAxis
  split_ifs with hcond <;> simp_all <;> omega

theorem iterAxis_eq_drop (suav : ℕ) (h : List ℤ) (x : ℤ)
    (hs : 1 ≤ suav) (hl : h.length ≤ suav) (n : ℕ) :
    iterAxis suav h x n =
      (h ++ List.replicate n x).drop (h.length + n - suav) := by
  induction n with
  | zero =>
      simp [iterAxis, Nat.sub_eq_zero_of_le hl]
  | succ n ih =>
      rw [iterAxis, ih, pushAxis]
      by_cases hcase : h.length + n < suav
      · have hd0 : h.length + n - suav = 0 := by omega
        have hd0' : h.length + (n + 1) - suav = 0 := by omega
        rw [hd0, hd0']
        simp only [List.drop_zero]
        rw [if_neg (by simp only [List.length_append, List.length_replicate,
          List.length_cons, List.length_nil]; omega)]
        rw [List.append_assoc, ← List.replicate_succ' ..]
      · have hle : suav ≤ h.length + n := by omega
        have hlenA : (h ++ List.replicate n x).length = h.length + n := by
          simp
        have hlend : ((h ++ List.replicate n x).drop
            (h.length + n - suav)).length = suav := by
          simp only [List.length_drop, hlenA]; omega
        rw [if_pos (by
          rw [List.length_append, hlend, List.length_singleton]; omega)]
        have hne : (h ++ List.replicate n x).drop (h.length + n - suav)
            ≠ [] := by
          intro hnil
          rw [hnil] at hlend
          simp at hlend; omega
        rw [List.tail_append_of_ne_nil hne, List.tail_drop]
        have hsplit : (h ++ List.replicate n x ++ [x]).drop
            (h.length + n - suav + 1) =
            (h ++ List.replicate n x).drop (h.length + n - suav + 1) ++ [x] :=
          List.drop_append_of_le_length (by rw [hlenA]; omega)
        rw [← hsplit]
        have harr : h ++ List.replicate n x ++ [x] =
            h ++ List.replicate (n + 1) x := by
          rw [List.append_assoc, ← List.replicate_succ' ..]
        rw [harr]
        congr 1
        omega

theorem iterAxis_replicate (suav : ℕ) (h : List ℤ) (x : ℤ)
    (hs : 1 ≤ suav) (hl : h.length ≤ suav) (n : ℕ) (hn : suav ≤ n) :
    iterAxis suav h x n = List.replicate suav x := by
  rw [iterAxis_eq_drop suav h x hs hl n]
  have hidx : h.length + n - suav = h.length + (n - suav) := by omega
  rw [hidx, List.drop_append (n - suav)]
  rw [List.drop_replicate x (n - suav) n]
  congr 1
  omega

theorem intMean_replicate (m : ℕ) (x : ℤ) (hm : m ≠ 0) :
    intMean (List.replicate m x) = x := by
  unfold intMean intDivTrunc
  rw [List.sum_replicate, List.length_replicate, nsmul_eq_mul]
  exact Int.mul_tdiv_cancel_left x (by exact_mod_cast hm)

/-- C5 (amended): the smoother keeps a FIFO of at most `suav` samples per
axis, evicting the oldest entry once the length would exceed the window;
each push returns the per-axis arithmetic mean of the retained samples
truncated toward zero; and pushing a constant point at least `suav`
consecutive times makes the returned smoothed point equal that point
exactly. -/
theorem C5_suavizado (hx hy : List ℤ) (suav : ℕ) (x y : ℤ) (k : ℕ)
    (hs : 1 ≤ suav) (hxl : hx.length ≤ suav) (hyl : hy.length ≤ suav)
    (hk : suav ≤ k) :
    ((suavizar_movimiento hx hy suav x y).1.1.length ≤ suav ∧
     (suavizar_movimiento hx hy suav x y).1.1 =
       (if suav < (hx ++ [x]).length then (hx ++ [x]).tail
        else hx ++ [x])) ∧
    (suavizar_movimiento hx hy suav x y).2 =
      (intMean (suavizar_movimiento hx hy suav x y).1.1,
       intMean (suavizar_movimiento hx hy suav x y).1.2) ∧
    (iterar_suavizado hx hy suav x y k).2 = (x, y) := by
  refine ⟨⟨?_, rfl⟩, rfl, ?_⟩
  · exact pushAxis_length_le suav hx x hs hxl
  · obtain ⟨m, rfl⟩ : ∃ m, k = m + 1 := ⟨k - 1, by omega⟩
    rw [iterar_suavizado_snd]
    rw [iterAxis_replicate suav hx x hs hxl (m + 1) hk,
        iterAxis_replicate suav hy y hs hyl (m + 1) hk]
    rw [intMean_replicate suav x (by omega), intMean_replicate suav y (by omega)]

/-- C5 counterexample: pushing `(1,1)` onto a window already holding
`(0,0)` retains `[0,1]` on each axis and returns `0`, which is not the
arithmetic mean `1/2` of the retained samples — the source truncates the
mean to an integer. -/
theorem C5_counterexample :
    (suavizar_movimiento [0] [0] 5 1 1).1.1 = [0, 1] ∧
    (suavizar_movimiento [0] [0] 5 1 1).2.1 = 0 ∧
    ((0 : ℚ) ≠ (([0, 1] : List ℤ).sum : ℚ) /
      (([0, 1] : List ℤ).length : ℚ)) := by
  refine ⟨by decide, by decide, ?_⟩
  norm_num

/-- C5 witness: pushing `(7, 9)` five times onto the empty window of size
5 returns exactly `(7, 9)`. -/
theorem C5_witness :
    (1 ≤ 5 ∧ ([] : List ℤ).length ≤ 5 ∧ (5 : ℕ) ≤ 5) ∧
    (iterar_suavizado [] [] 5 7 9 5).2 = (7, 9) :=
  ⟨⟨by decide, by decide, by decide⟩,
   (C5_suavizado [] [] 5 7 9 5 (by decide) (by decide) (by decide)
      (by decide)).2.2⟩

theorem realizar_click_desde_libre (st : Estado) (i : InfoGesto)
    (hc : st.clicking = false) (hg : i.gesto = .click)
    (hp : i.posicion.isSome) :
    (realizar_accion_mouse st i).1 = {st with clicking := true} ∧
    (realizar_accion_mouse st i).2.count .mouseDown = 1 ∧
    (realizar_accion_mouse st i).2.count .mouseUp = 0 := by
  obtain ⟨p, hpos⟩ := Option.isSome_iff_exists.mp hp
  simp [realizar_accion_mouse, hpos, hg, hc, List.count_cons, beq_iff_eq]

theorem realizar_click_latcheado (st : Estado) (i : InfoGesto)
    (hc : st.clicking = true) (hg : i.gesto = .click) :
    (realizar_accion_mouse st i).1 = st ∧
    (realizar_accion_mouse st i).2.count .mouseDown = 0 ∧
    (realizar_accion_mouse st i).2.count .mouseUp = 0 := by
  cases hpos : i.posicion with
  | none => simp [realizar_accion_mouse, hpos]
  | some p =>
      simp [realizar_accion_mouse, hpos, hg, hc, List.count_cons, beq_iff_eq]

theorem realizar_ninguno_suelta (st : Estado) (i : InfoGesto)
    (hc : st.clicking = true) (hg : i.gesto = .ninguno)
    (hp : i.posicion.isSome) :
    (realizar_accion_mouse st i).1 =
      {st with clicking := false, dragging := false,
               right_clicking := false} ∧
    (realizar_accion_mouse st i).2.count .mouseUp = 1 ∧
    (realizar_accion_mouse st i).2.count .mouseDown = 0 := by
  obtain ⟨p, hpos⟩ := Option.isSome_iff_exists.mp hp
  simp [realizar_accion_mouse, hpos, hg, hc, List.count_cons, beq_iff_eq]

theorem ejecutar_clicks_latcheado (st : Estado) (l : List InfoGesto)
    (hc : st.clicking = true) (hall : ∀ i ∈ l, i.gesto = .click) :
    (ejecutar_acciones st l).1 = st ∧
    (ejecutar_acciones st l).2.count .mouseDown = 0 ∧
    (ejecutar_acciones st l).2.count .mouseUp = 0 := by
  induction l with
  | nil => exact ⟨rfl, rfl, rfl⟩
  | cons i rest ih =>
      have hi := hall i (by simp)
      have h1 := realizar_click_latcheado st i hc hi
      have ihr := ih (fun j hj => hall j (List.mem_cons_of_mem _ hj))
      simp only [ejecutar_acciones]
      rw [h1.1]
      refine ⟨ihr.1, ?_, ?_⟩
      · rw [List.count_append, h1.2.1, ihr.2.1]
      · rw [List.count_append, h1.2.2, ihr.2.2]

/-- C1 (amended): from an unlatched state, N ≥ 1 consecutive `Click`
frames with positions issue exactly one `mouseDown` (on the first frame,
setting `clicking`; the rest are no-ops), and a following frame with a
position whose gesture falls into the dispatcher's final `else` branch —
i.e. is none of Click, Drag, RightClick, ZoomIn, ZoomOut; here the
`ninguno`/Cursor gesture — issues exactly one `mouseUp` and clears both
`clicking` and `dragging`.  (A RightClick or Zoom frame, although
neither Click nor Drag, does not release the latch: see
`C1_counterexample`.) -/
theorem C1_click_latch (st : Estado) (l : List InfoGesto)
    (ultimo : InfoGesto)
    (hc : st.clicking = false) (hdrag : st.dragging = false) (hl : l ≠ [])
    (hall : ∀ i ∈ l, i.gesto = .click ∧ i.posicion.isSome)
    (hu_g : ultimo.gesto = .ninguno) (hu_p : ultimo.posicion.isSome) :
    (ejecutar_acciones st l).2.count .mouseDown = 1 ∧
    (ejecutar_acciones st l).2.count .mouseUp = 0 ∧
    (ejecutar_acciones st l).1.clicking = true ∧
    (ejecutar_acciones st l).1.dragging = false ∧
    (realizar_accion_mouse (ejecutar_acciones st l).1 ultimo).2.count
        .mouseUp = 1 ∧
    (realizar_accion_mouse (ejecutar_acciones st l).1 ultimo).2.count
        .mouseDown = 0 ∧
    (realizar_accion_mouse (ejecutar_acciones st l).1 ultimo).1.clicking =
      false ∧
    (realizar_accion_mouse (ejecutar_acciones st l).1 ultimo).1.dragging =
      false := by
  obtain ⟨i, rest, rfl⟩ : ∃ i rest, l = i :: rest := by
    cases l with
    | nil => exact absurd rfl hl
    | cons i rest => exact ⟨i, rest, rfl⟩
  have hi := hall i (by simp)
  have hfirst := realizar_click_desde_libre st i hc hi.1 hi.2
  have hrest := ejecutar_clicks_latcheado {st with clicking := true} rest
    rfl (fun j hj => (hall j (List.mem_cons_of_mem _ hj)).1)
  have hstate : (ejecutar_acciones st (i :: rest)).1 =
      {st with clicking := true} := by
    simp only [ejecutar_acciones]
    rw [hfirst.1, hrest.1]
  have hcount_dn : (ejecutar_acciones st (i :: rest)).2.count
      .mouseDown = 1 := by
    simp only [ejecutar_acciones]
    rw [hfirst.1, List.count_append, hfirst.2.1, hrest.2.1]
  have hcount_up : (ejecutar_acciones st (i :: rest)).2.count
      .mouseUp = 0 := by
    simp only [ejecutar_acciones]
    rw [hfirst.1, List.count_append, hfirst.2.2, hrest.2.2]
  have hfin := realizar_ninguno_suelta {st with clicking := true} ultimo
    rfl hu_g hu_p
  rw [hstate]
  refine ⟨hcount_dn, hcount_up, rfl, by simp [hdrag], hfin.2.1, hfin.2.2,
    ?_, ?_⟩
  · rw [hfin.1]
  · rw [hfin.1]

/-- C1 counterexample: after one `Click` frame latches the button, a
following `menu_contextual` (RightClick) frame — whose gesture is
neither Click nor Drag, and which carries a position — issues no
`mouseUp` at all and leaves `clicking` latched, contradicting the
claim that the first such frame issues exactly one `buttonUp` and
clears the latches. -/
theorem C1_counterexample :
    infoMenuDemo.gesto ≠ .click ∧ infoMenuDemo.gesto ≠ .arrastrar ∧
    infoMenuDemo.posicion.isSome = true ∧
    (ejecutar_acciones estadoInicial [infoClickDemo, infoMenuDemo]).2.count
        .mouseUp = 0 ∧
    (ejecutar_acciones estadoInicial [infoClickDemo, infoMenuDemo]).2.count
        .mouseDown = 1 ∧
    (ejecutar_acciones estadoInicial [infoClickDemo, infoMenuDemo]).1.clicking
      = true :=
  ⟨by decide, by decide, by decide, by decide, by decide, by decide⟩

/-- C1 witness: one `Click` frame from the initial state followed by a
`ninguno` frame — one `mouseDown`, then one `mouseUp` and both latches
cleared. -/
theorem C1_witness :
    (ejecutar_acciones estadoInicial [infoClickDemo]).2.count
        .mouseDown = 1 ∧
    (ejecutar_acciones estadoInicial [infoClickDemo]).2.count .mouseUp = 0 ∧
    (ejecutar_acciones estadoInicial [infoClickDemo]).1.clicking = true ∧
    (ejecutar_acciones estadoInicial [infoClickDemo]).1.dragging = false ∧
    (realizar_accion_mouse (ejecutar_acciones estadoInicial
        [infoClickDemo]).1 infoSueltaDemo).2.count .mouseUp = 1 ∧
    (realizar_accion_mouse (ejecutar_acciones estadoInicial
        [infoClickDemo]).1 infoSueltaDemo).2.count .mouseDown = 0 ∧
    (realizar_accion_mouse (ejecutar_acciones estadoInicial
        [infoClickDemo]).1 infoSueltaDemo).1.clicking = false ∧
    (realizar_accion_mouse (ejecutar_acciones estadoInicial
        [infoClickDemo]).1 infoSueltaDemo).1.dragging = false :=
  C1_click_latch estadoInicial [infoClickDemo] infoSueltaDemo rfl rfl
    (by decide) (by decide) rfl rfl

theorem calcular_posicion_clicking (st : Estado) (p : Punto)
    (a h : ℤ) : (calcular_posicion st p a h).1.clicking = st.clicking := by
  unfold calcular_posicion; split_ifs <;> rfl

theorem calcular_posicion_dragging (st : Estado) (p : Punto)
    (a h : ℤ) : (calcular_posicion st p a h).1.dragging = st.dragging := by
  unfold calcular_posicion; split_ifs <;> rfl

theorem calcular_posicion_right_clicking (st : Estado) (p : Punto)
    (a h : ℤ) :
    (calcular_posicion st p a h).1.right_clicking = st.right_clicking := by
  unfold calcular_posicion; split_ifs <;> rfl

theorem calcular_posicion_zoom_mode (st : Estado) (p : Punto)
    (a h : ℤ) : (calcular_posicion st p a h).1.zoom_mode = st.zoom_mode := by
  unfold calcular_posicion; split_ifs <;> rfl

theorem calcular_posicion_haciendo_zoom (st : Estado) (p : Punto)
    (a h : ℤ) :
    (calcular_posicion st p a h).1.haciendo_zoom = st.haciendo_zoom := by
  unfold calcular_posicion; split_ifs <;> rfl

theorem calcular_posicion_distancia (st : Estado) (p : Punto)
    (a h : ℤ) :
    (calcular_posicion st p a h).1.distancia_punos_inicial2 =
      st.distancia_punos_inicial2 := by
  unfold calcular_posicion; split_ifs <;> rfl

theorem calcular_posicion_punto_inicial (st : Estado) (p : Punto)
    (a h : ℤ) :
    (calcular_posicion st p a h).1.punto_inicial_arrastre =
      st.punto_inicial_arrastre := by
  unfold calcular_posicion; split_ifs <;> rfl

theorem calcular_posicion_modo (st : Estado) (p : Punto)
    (a h : ℤ) : (calcular_posicion st p a h).1.modo = st.modo := by
  unfold calcular_posicion; split_ifs <;> rfl

theorem detectar_gesto_eq (st : Estado) (puntos : List Punto)
    (ancho altura : ℤ) (h13 : ¬ puntos.length < 13) :
    (detectar_gestos_una_mano st puntos ancho altura).2.gesto =
      (if es_puno_cerrado puntos && !st.zoom_mode then .click
       else if dist2 (puntos.getD 4 (0, 0)) (puntos.getD 12 (0, 0)) < 1600
       then .menu_contextual
       else if dist2 (puntos.getD 4 (0, 0)) (puntos.getD 8 (0, 0)) < 1600
       then (if st.dragging || st.clicking then TipoGesto.arrastrar
             else TipoGesto.click)
       else .ninguno) := by
  simp only [detectar_gestos_una_mano, h13, if_false, ite_false]
  split_ifs <;>
    simp_all [calcular_posicion_zoom_mode, calcular_posicion_clicking,
      calcular_posicion_dragging]

/-- C4 (amended): the one-hand classification is last-assignment-wins,
with priority closed-fist (zoom inactive) over middle pinch over index
pinch: a closed fist with zoom inactive always yields `Click`;
otherwise a middle pinch under 40px yields `RightClick` — even when the
index pinch is also under 40px; otherwise an index pinch under 40px
yields `Click`, upgraded to `Drag` when a click or drag is already
latched; otherwise the gesture is `ninguno` (plain cursor tracking). -/
theorem C4_orden_clasificacion (st : Estado) (puntos : List Punto)
    (ancho altura : ℤ) (h21 : puntos.length = 21) :
    ((es_puno_cerrado puntos = true ∧ st.zoom_mode = false) →
      (detectar_gestos_una_mano st puntos ancho altura).2.gesto = .click) ∧
    (¬(es_puno_cerrado puntos = true ∧ st.zoom_mode = false) →
      calcular_distancia (puntos.getD 4 (0, 0)) (puntos.getD 12 (0, 0)) <
        ((40 : ℤ) : ℝ) →
      (detectar_gestos_una_mano st puntos ancho altura).2.gesto =
        .menu_contextual) ∧
    (¬(es_puno_cerrado puntos = true ∧ st.zoom_mode = false) →
      ¬(calcular_distancia (puntos.getD 4 (0, 0)) (puntos.getD 12 (0, 0)) <
        ((40 : ℤ) : ℝ)) →
      calcular_distancia (puntos.getD 4 (0, 0)) (puntos.getD 8 (0, 0)) <
        ((40 : ℤ) : ℝ) →
      (detectar_gestos_una_mano st puntos ancho altura).2.gesto =
        (if st.dragging || st.clicking then TipoGesto.arrastrar
         else TipoGesto.click)) ∧
    (¬(es_puno_cerrado puntos = true ∧ st.zoom_mode = false) →
      ¬(calcular_distancia (puntos.getD 4 (0, 0)) (puntos.getD 12 (0, 0)) <
        ((40 : ℤ) : ℝ)) →
      ¬(calcular_distancia (puntos.getD 4 (0, 0)) (puntos.getD 8 (0, 0)) <
        ((40 : ℤ) : ℝ)) →
      (detectar_gestos_una_mano st puntos ancho altura).2.gesto =
        .ninguno) := by
  have h13 : ¬ puntos.length < 13 := by omega
  have hchar := detectar_gesto_eq st puntos ancho altura h13
  have hiff8 : calcular_distancia (puntos.getD 4 (0, 0))
      (puntos.getD 8 (0, 0)) < ((40 : ℤ) : ℝ) ↔
      dist2 (puntos.getD 4 (0, 0)) (puntos.getD 8 (0, 0)) < 1600 := by
    rw [calcular_distancia_lt_const _ _ 40 (by norm_num)]; norm_num
  have hiff12 : calcular_distancia (puntos.getD 4 (0, 0))
      (puntos.getD 12 (0, 0)) < ((40 : ℤ) : ℝ) ↔
      dist2 (puntos.getD 4 (0, 0)) (puntos.getD 12 (0, 0)) < 1600 := by
    rw [calcular_distancia_lt_const _ _ 40 (by norm_num)]; norm_num
  have hfist_iff : (es_puno_cerrado puntos && !st.zoom_mode) = true ↔
      (es_puno_cerrado puntos = true ∧ st.zoom_mode = false) := by
    simp [Bool.and_eq_true]
  refine ⟨?_, ?_, ?_, ?_⟩
  · intro hf
    rw [hchar, if_pos (hfist_iff.mpr hf)]
  · intro hnf h12
    rw [hchar, if_neg (fun hcond => hnf (hfist_iff.mp hcond)),
      if_pos (hiff12.mp h12)]
  · intro hnf h12 h8
    rw [hchar, if_neg (fun hcond => hnf (hfist_iff.mp hcond)),
      if_neg (fun hcond => h12 (hiff12.mpr hcond)),
      if_pos (hiff8.mp h8)]
  · intro hnf h12 h8
    rw [hchar, if_neg (fun hcond => hnf (hfist_iff.mp hcond)),
      if_neg (fun hcond => h12 (hiff12.mpr hcond)),
      if_neg (fun hcond => h8 (hiff8.mpr hcond))]

/-- C4 counterexample: on the hand `manoDosPinzas` both the index pinch
(`√125 < 40`) and the middle pinch (`√50 < 40`) hold simultaneously, yet
the produced gesture is `menu_contextual` (RightClick), not Click or
Drag — the middle-pinch assignment overwrites the index-pinch one, so
the classification is not first-match-wins. -/
theorem C4_counterexample :
    calcular_distancia (manoDosPinzas.getD 4 (0, 0))
      (manoDosPinzas.getD 8 (0, 0)) < 40 ∧
    calcular_distancia (manoDosPinzas.getD 4 (0, 0))
      (manoDosPinzas.getD 12 (0, 0)) < 40 ∧
    (detectar_gestos_una_mano estadoInicial manoDosPinzas 640 480).2.gesto =
      .menu_contextual := by
  refine ⟨?_, ?_, by decide⟩
  · have h := (calcular_distancia_lt_const (manoDosPinzas.getD 4 (0, 0))
      (manoDosPinzas.getD 8 (0, 0)) 40 (by norm_num)).mpr (by decide)
    exact_mod_cast h
  · have h := (calcular_distancia_lt_const (manoDosPinzas.getD 4 (0, 0))
      (manoDosPinzas.getD 12 (0, 0)) 40 (by norm_num)).mpr (by decide)
    exact_mod_cast h

/-- C4 witness: the closed-fist hand `manoPuno` in the initial state
(zoom inactive) classifies as `Click` via the fist rule. -/
theorem C4_witness :
    manoPuno.length = 21 ∧
    (detectar_gestos_una_mano estadoInicial manoPuno 640 480).2.gesto =
      .click :=
  ⟨by decide,
   (C4_orden_clasificacion estadoInicial manoPuno 640 480 (by decide)).1
     ⟨by decide, rfl⟩⟩

theorem detectar_zoom_fields (st : Estado) (pts : List Punto) (a h : ℤ) :
    (detectar_gestos_una_mano st pts a h).1.zoom_mode = st.zoom_mode ∧
    (detectar_gestos_una_mano st pts a h).1.haciendo_zoom =
      st.haciendo_zoom ∧
    (detectar_gestos_una_mano st pts a h).1.distancia_punos_inicial2 =
      st.distancia_punos_inicial2 := by
  simp only [detectar_gestos_una_mano]
  split_ifs <;>
    simp_all [calcular_posicion_zoom_mode, calcular_posicion_haciendo_zoom,
      calcular_posicion_distancia]

theorem realizar_zoom_fields (st : Estado) (i : InfoGesto) :
    (realizar_accion_mouse st i).1.zoom_mode = st.zoom_mode ∧
    (realizar_accion_mouse st i).1.haciendo_zoom = st.haciendo_zoom ∧
    (realizar_accion_mouse st i).1.distancia_punos_inicial2 =
      st.distancia_punos_inicial2 := by
  cases hp : i.posicion <;> cases hg : i.gesto <;>
    simp [realizar_accion_mouse, hp, hg] <;> split_ifs <;> simp

theorem una_mano_accion_zoom_fields (st : Estado) (pts : List Punto)
    (a h : ℤ) :
    (procesar_una_mano_y_accion st pts a h).1.zoom_mode = st.zoom_mode ∧
    (procesar_una_mano_y_accion st pts a h).1.haciendo_zoom =
      st.haciendo_zoom ∧
    (procesar_una_mano_y_accion st pts a h).1.distancia_punos_inicial2 =
      st.distancia_punos_inicial2 := by
  simp only [procesar_una_mano_y_accion]
  split_ifs <;>
    simp [realizar_zoom_fields, detectar_zoom_fields,
      (realizar_zoom_fields _ _).1, (realizar_zoom_fields _ _).2.1,
      (realizar_zoom_fields _ _).2.2, (detectar_zoom_fields _ _ _ _).1,
      (detectar_zoom_fields _ _ _ _).2.1, (detectar_zoom_fields _ _ _ _).2.2]

theorem dos_manos_reset (st : Estado) (manos : List (List Punto))
    (info : InfoGesto)
    (hcount : (manos.filter es_puno_cerrado).length ≠ 2) :
    detectar_gestos_dos_manos st manos info =
      (resetear_zoom {st with punos_detectados :=
        (manos.filter es_puno_cerrado).map (fun m => m.headD (0, 0))},
       info) := by
  unfold detectar_gestos_dos_manos
  cases hp : (manos.filter es_puno_cerrado).map (fun m => m.headD (0, 0)) with
  | nil => simp [hp]
  | cons a t =>
      cases t with
      | nil => simp [hp]
      | cons b t2 =>
          cases t2 with
          | nil =>
              exfalso
              apply hcount
              have hlen := congrArg List.length hp
              simpa using hlen
          | cons c t3 => simp [hp]

theorem procesar_frame_una (st : Estado) (m : List Punto)
    (ancho altura : ℤ) :
    procesar_frame st [m] ancho altura =
      procesar_una_mano_y_accion st m ancho altura := rfl

theorem procesar_frame_dos (st : Estado) (m1 m2 : List Punto)
    (ancho altura : ℤ) :
    procesar_frame st [m1, m2] ancho altura =
      (if (detectar_gestos_dos_manos st [m1, m2] infoNinguno).2.gesto =
            .zoom_in ∨
          (detectar_gestos_dos_manos st [m1, m2] infoNinguno).2.gesto =
            .zoom_out then
        ((detectar_gestos_dos_manos st [m1, m2] infoNinguno).1,
         (detectar_gestos_dos_manos st [m1, m2] infoNinguno).2, [])
       else procesar_una_mano_y_accion
         (detectar_gestos_dos_manos st [m1, m2] infoNinguno).1 m1
         ancho altura) := rfl

/-- C6 (amended): zoom state is reset exactly by two-hand frames whose
closed-fist count differs from 2: after such a frame `zoom_mode` and
`haciendo_zoom` are false and the baseline is cleared.  Frames in which
fewer than two hands are detected do not touch the zoom state at all —
the latch and the baseline survive them. -/
theorem C6_reset_zoom (st : Estado) (manos : List (List Punto))
    (ancho altura : ℤ) :
    (manos.length = 2 → (manos.filter es_puno_cerrado).length ≠ 2 →
      ((procesar_frame st manos ancho altura).1.zoom_mode = false ∧
       (procesar_frame st manos ancho altura).1.haciendo_zoom = false ∧
       (procesar_frame st manos ancho altura).1.distancia_punos_inicial2 =
         none)) ∧
    (manos.length ≤ 1 →
      ((procesar_frame st manos ancho altura).1.zoom_mode = st.zoom_mode ∧
       (procesar_frame st manos ancho altura).1.haciendo_zoom =
         st.haciendo_zoom ∧
       (procesar_frame st manos ancho altura).1.distancia_punos_inicial2 =
         st.distancia_punos_inicial2)) := by
  constructor
  · intro h2 hcount
    obtain ⟨m1, m2, rfl⟩ := List.length_eq_two.mp h2
    rw [procesar_frame_dos, dos_manos_reset st [m1, m2] infoNinguno hcount]
    simp only [infoNinguno]
    rw [if_neg (by simp)]
    have hz := una_mano_accion_zoom_fields
      (resetear_zoom {st with punos_detectados :=
        (([m1, m2].filter es_puno_cerrado).map (fun m => m.headD (0, 0)))})
      m1 ancho altura
    exact ⟨hz.1, hz.2.1, hz.2.2⟩
  · intro h1
    match manos, h1 with
    | [], _ => exact ⟨rfl, rfl, rfl⟩
    | [m], _ =>
        rw [procesar_frame_una]
        exact una_mano_accion_zoom_fields st m ancho altura

/-- C6 counterexample: a frame with zero detected hands — hence zero
closed fists, not 2 — leaves the zoom latch set and the old baseline in
place, contradicting the claim that any frame with ≠ 2 closed fists
deactivates zoom and clears the baseline. -/
theorem C6_counterexample :
    estadoZoom.haciendo_zoom = true ∧
    (procesar_frame estadoZoom [] 640 480).1.zoom_mode = true ∧
    (procesar_frame estadoZoom [] 640 480).1.haciendo_zoom = true ∧
    (procesar_frame estadoZoom [] 640 480).1.distancia_punos_inicial2 =
      some 40000 :=
  ⟨rfl, rfl, rfl, rfl⟩

/-- C6 witness: a two-hand frame with one open hand and one fist (one
closed fist, not 2) processed from the active zoom session `estadoZoom`
resets the zoom latch and clears the baseline. -/
theorem C6_witness :
    (([manoPuno, manoAbierta] : List (List Punto)).length = 2 ∧
      (([manoPuno, manoAbierta].filter es_puno_cerrado).length ≠ 2)) ∧
    ((procesar_frame estadoZoom [manoPuno, manoAbierta] 640 480).1.zoom_mode
        = false ∧
     (procesar_frame estadoZoom [manoPuno, manoAbierta] 640
        480).1.haciendo_zoom = false ∧
     (procesar_frame estadoZoom [manoPuno, manoAbierta] 640
        480).1.distancia_punos_inicial2 = none) :=
  ⟨⟨by decide, by decide⟩,
   (C6_reset_zoom estadoZoom [manoPuno, manoAbierta] 640 480).1
     (by decide) (by decide)⟩

theorem calcular_posicion_update (st : Estado) (pd : List Punto)
    (dz : Option ℤ) (p : Punto) (a h : ℤ) :
    calcular_posicion
        {st with punos_detectados := pd, distancia_punos_inicial2 := dz}
        p a h =
      ({(calcular_posicion st p a h).1 with
          punos_detectados := pd, distancia_punos_inicial2 := dz},
       (calcular_posicion st p a h).2) := by
  cases st
  simp only [calcular_posicion]
  split_ifs <;> rfl

theorem detectar_update (st : Estado) (pd : List Punto) (dz : Option ℤ)
    (pts : List Punto) (a h : ℤ) :
    detectar_gestos_una_mano
        {st with punos_detectados := pd, distancia_punos_inicial2 := dz}
        pts a h =
      ({(detectar_gestos_una_mano st pts a h).1 with
          punos_detectados := pd, distancia_punos_inicial2 := dz},
       (detectar_gestos_una_mano st pts a h).2) := by
  simp only [detectar_gestos_una_mano, calcular_posicion_update]
  split_ifs <;> rfl

theorem realizar_update (st : Estado) (pd : List Punto) (dz : Option ℤ)
    (i : InfoGesto) :
    realizar_accion_mouse
        {st with punos_detectados := pd, distancia_punos_inicial2 := dz}
        i =
      ({(realizar_accion_mouse st i).1 with
          punos_detectados := pd, distancia_punos_inicial2 := dz},
       (realizar_accion_mouse st i).2) := by
  cases hp : i.posicion <;> cases hg : i.gesto <;>
    simp [realizar_accion_mouse, hp, hg] <;> split_ifs <;> rfl

theorem una_mano_accion_update (st : Estado) (pd : List Punto)
    (dz : Option ℤ) (pts : List Punto) (a h : ℤ) :
    procesar_una_mano_y_accion
        {st with punos_detectados := pd, distancia_punos_inicial2 := dz}
        pts a h =
      ({(procesar_una_mano_y_accion st pts a h).1 with
          punos_detectados := pd, distancia_punos_inicial2 := dz},
       (procesar_una_mano_y_accion st pts a h).2) := by
  simp only [procesar_una_mano_y_accion, detectar_update, realizar_update]
  split_ifs <;> rfl

theorem procesar_zoom_fst_update (st : Estado) (P : List Punto)
    (p1 p2 : Punto) (info : InfoGesto) :
    (procesar_zoom {st with punos_detectados := P} p1 p2 info).1 =
      (if st.haciendo_zoom then
        {st with punos_detectados := P, zoom_mode := true}
       else {st with punos_detectados := P, zoom_mode := true,
                     haciendo_zoom := true,
                     distancia_punos_inicial2 := some (dist2 p1 p2)}) := by
  by_cases h : st.haciendo_zoom = true <;>
  cases hd : st.distancia_punos_inicial2 <;>
    simp [procesar_zoom, h, hd] <;> split_ifs <;> rfl

theorem procesar_zoom_snd_cases (st : Estado) (p1 p2 : Punto)
    (info : InfoGesto) :
    (procesar_zoom st p1 p2 info).2 = info ∨
    (procesar_zoom st p1 p2 info).2.gesto = .zoom_in ∨
    (procesar_zoom st p1 p2 info).2.gesto = .zoom_out := by
  by_cases h : st.haciendo_zoom = true <;>
  cases hd : st.distancia_punos_inicial2 <;>
    simp [procesar_zoom, h, hd] <;> split_ifs <;> simp

theorem dos_manos_dos_punos (st : Estado) (m0 m1 : List Punto)
    (info : InfoGesto)
    (h0 : es_puno_cerrado m0 = true) (h1 : es_puno_cerrado m1 = true) :
    detectar_gestos_dos_manos st [m0, m1] info =
      procesar_zoom {st with punos_detectados :=
          [m0.headD (0, 0), m1.headD (0, 0)]}
        (m0.headD (0, 0)) (m1.headD (0, 0)) info := by
  unfold detectar_gestos_dos_manos
  simp [List.filter, h0, h1]

/-- C9 (amended): on a two-hand frame that emits no zoom event, the
one-hand classification runs on the first detected hand only, and the
second hand's landmarks influence the returned gesture record and action
trace only through its closed-fist status (which feeds the zoom latch):
two second-hands with the same `_es_puño_cerrado` outcome yield
identical results.  A second hand with a different fist status can
change the returned gesture (see `C9_counterexample`). -/
theorem C9_segunda_mano (st : Estado) (m0 m1 m1' : List Punto)
    (ancho altura : ℤ)
    (hf : es_puno_cerrado m1 = es_puno_cerrado m1')
    (hz1 : ¬((procesar_frame st [m0, m1] ancho altura).2.1.gesto =
        .zoom_in ∨
      (procesar_frame st [m0, m1] ancho altura).2.1.gesto = .zoom_out))
    (hz2 : ¬((procesar_frame st [m0, m1'] ancho altura).2.1.gesto =
        .zoom_in ∨
      (procesar_frame st [m0, m1'] ancho altura).2.1.gesto = .zoom_out)) :
    (procesar_frame st [m0, m1] ancho altura).2 =
      (procesar_frame st [m0, m1'] ancho altura).2 := by
  by_cases hF1 : es_puno_cerrado m1 = true
  case neg =>
    have hF1a : es_puno_cerrado m1 = false := by
      simpa using hF1
    have hF1b : es_puno_cerrado m1' = false := by rw [← hf]; exact hF1a
    have hfil : List.filter es_puno_cerrado [m0, m1] =
        List.filter es_puno_cerrado [m0, m1'] := by
      simp [List.filter, hF1a, hF1b]
    have hdm : detectar_gestos_dos_manos st [m0, m1] infoNinguno =
        detectar_gestos_dos_manos st [m0, m1'] infoNinguno := by
      unfold detectar_gestos_dos_manos; rw [hfil]
    rw [procesar_frame_dos, procesar_frame_dos, hdm]
  case pos =>
    have hF1' : es_puno_cerrado m1' = true := by rw [← hf]; exact hF1
    by_cases hF0 : es_puno_cerrado m0 = true
    case neg =>
      have hF0a : es_puno_cerrado m0 = false := by simpa using hF0
      have hcount1 : (List.filter es_puno_cerrado [m0, m1]).length ≠ 2 := by
        simp [List.filter, hF0a, hF1]
      have hcount2 : (List.filter es_puno_cerrado [m0, m1']).length ≠ 2 := by
        simp [List.filter, hF0a, hF1']
      rw [procesar_frame_dos, procesar_frame_dos,
        dos_manos_reset st [m0, m1] infoNinguno hcount1,
        dos_manos_reset st [m0, m1'] infoNinguno hcount2]
      rw [if_neg (by simp [infoNinguno]), if_neg (by simp [infoNinguno])]
      rw [show (resetear_zoom
          {st with punos_detectados := (([m0, m1].filter es_puno_cerrado).map (fun m => m.headD (0, 0)))} : Estado) =
        {(resetear_zoom st : Estado) with
          punos_detectados := (([m0, m1].filter es_puno_cerrado).map (fun m => m.headD (0, 0))),
          distancia_punos_inicial2 := none} from rfl]
      rw [show (resetear_zoom
          {st with punos_detectados := (([m0, m1'].filter es_puno_cerrado).map (fun m => m.headD (0, 0)))} : Estado) =
        {(resetear_zoom st : Estado) with
          punos_detectados := (([m0, m1'].filter es_puno_cerrado).map (fun m => m.headD (0, 0))),
          distancia_punos_inicial2 := none} from rfl]
      rw [una_mano_accion_update (resetear_zoom st)
          (([m0, m1].filter es_puno_cerrado).map (fun m => m.headD (0, 0)))
          none m0 ancho altura,
        una_mano_accion_update (resetear_zoom st)
          (([m0, m1'].filter es_puno_cerrado).map (fun m => m.headD (0, 0)))
          none m0 ancho altura]
    case pos =>
      rw [procesar_frame_dos,
        dos_manos_dos_punos st m0 m1 infoNinguno hF0 hF1] at hz1
      rw [procesar_frame_dos,
        dos_manos_dos_punos st m0 m1' infoNinguno hF0 hF1'] at hz2
      rw [procesar_frame_dos, procesar_frame_dos,
        dos_manos_dos_punos st m0 m1 infoNinguno hF0 hF1,
        dos_manos_dos_punos st m0 m1' infoNinguno hF0 hF1']
      rcases procesar_zoom_snd_cases
          {st with punos_detectados := [m0.headD (0, 0), m1.headD (0, 0)]}
          (m0.headD (0, 0)) (m1.headD (0, 0)) infoNinguno with hA | hA | hA
      case inr.inl =>
        exfalso; apply hz1
        rw [if_pos (Or.inl hA)]
        exact Or.inl hA
      case inr.inr =>
        exfalso; apply hz1
        rw [if_pos (Or.inr hA)]
        exact Or.inr hA
      case inl =>
        rcases procesar_zoom_snd_cases
            {st with punos_detectados :=
              [m0.headD (0, 0), m1'.headD (0, 0)]}
            (m0.headD (0, 0)) (m1'.headD (0, 0)) infoNinguno
          with hB | hB | hB
        case inr.inl =>
          exfalso; apply hz2
          rw [if_pos (Or.inl hB)]
          exact Or.inl hB
        case inr.inr =>
          exfalso; apply hz2
          rw [if_pos (Or.inr hB)]
          exact Or.inr hB
        case inl =>
          rw [if_neg (by rw [hA]; simp [infoNinguno]),
            if_neg (by rw [hB]; simp [infoNinguno])]
          rw [procesar_zoom_fst_update, procesar_zoom_fst_update]
          by_cases hz : st.haciendo_zoom = true
          · rw [if_pos hz, if_pos hz]
            rw [show ({st with
                punos_detectados := [m0.headD (0, 0), m1.headD (0, 0)],
                zoom_mode := true} : Estado) =
              {({st with zoom_mode := true} : Estado) with
                punos_detectados := [m0.headD (0, 0), m1.headD (0, 0)],
                distancia_punos_inicial2 := st.distancia_punos_inicial2} from rfl]
            rw [show ({st with
                punos_detectados := [m0.headD (0, 0), m1'.headD (0, 0)],
                zoom_mode := true} : Estado) =
              {({st with zoom_mode := true} : Estado) with
                punos_detectados := [m0.headD (0, 0), m1'.headD (0, 0)],
                distancia_punos_inicial2 := st.distancia_punos_inicial2} from rfl]
            rw [una_mano_accion_update {st with zoom_mode := true}
                [m0.headD (0, 0), m1.headD (0, 0)]
                st.distancia_punos_inicial2 m0 ancho altura,
              una_mano_accion_update {st with zoom_mode := true}
                [m0.headD (0, 0), m1'.headD (0, 0)]
                st.distancia_punos_inicial2 m0 ancho altura]
          · rw [if_neg hz, if_neg hz]
            rw [show ({st with
                punos_detectados := [m0.headD (0, 0), m1.headD (0, 0)],
                zoom_mode := true, haciendo_zoom := true,
                distancia_punos_inicial2 := some (dist2 (m0.headD (0, 0)) (m1.headD (0, 0)))} : Estado) =
              {({st with zoom_mode := true, haciendo_zoom := true} : Estado) with
                punos_detectados := [m0.headD (0, 0), m1.headD (0, 0)],
                distancia_punos_inicial2 := some (dist2 (m0.headD (0, 0)) (m1.headD (0, 0)))} from rfl]
            rw [show ({st with
                punos_detectados := [m0.headD (0, 0), m1'.headD (0, 0)],
                zoom_mode := true, haciendo_zoom := true,
                distancia_punos_inicial2 := some (dist2 (m0.headD (0, 0)) (m1'.headD (0, 0)))} : Estado) =
              {({st with zoom_mode := true, haciendo_zoom := true} : Estado) with
                punos_detectados := [m0.headD (0, 0), m1'.headD (0, 0)],
                distancia_punos_inicial2 := some (dist2 (m0.headD (0, 0)) (m1'.headD (0, 0)))} from rfl]
            rw [una_mano_accion_update
                {st with zoom_mode := true, haciendo_zoom := true}
                [m0.headD (0, 0), m1.headD (0, 0)]
                (some (dist2 (m0.headD (0, 0)) (m1.headD (0, 0))))
                m0 ancho altura,
              una_mano_accion_update
                {st with zoom_mode := true, haciendo_zoom := true}
                [m0.headD (0, 0), m1'.headD (0, 0)]
                (some (dist2 (m0.headD (0, 0)) (m1'.headD (0, 0))))
                m0 ancho altura]

/-- C9 counterexample: with the same first hand (a closed fist) and the
same initial state, a fist second hand leaves the frame's gesture at
`ninguno` (the freshly set zoom latch suppresses the fist→Click rule),
while an open second hand yields `click` — neither frame emits a zoom
event, yet the second hand's landmarks changed the returned gesture. -/
theorem C9_counterexample :
    (procesar_frame estadoInicial [manoPuno, manoPuno] 640 480).2.1.gesto =
      .ninguno ∧
    (procesar_frame estadoInicial [manoPuno, manoAbierta] 640
      480).2.1.gesto = .click :=
  ⟨by decide, by decide⟩

/-- C9 witness: two open (non-fist) second hands with equal fist status
give identical frame results. -/
theorem C9_witness :
    es_puno_cerrado manoAbierta = es_puno_cerrado (List.replicate 21
      ((1, 1) : Punto)) ∧
    (procesar_frame estadoInicial [manoDosPinzas, manoAbierta] 640
        480).2 =
      (procesar_frame estadoInicial [manoDosPinzas, List.replicate 21
        ((1, 1) : Punto)] 640 480).2 :=
  ⟨by decide,
   C9_segunda_mano estadoInicial manoDosPinzas manoAbierta
     (List.replicate 21 ((1, 1) : Punto)) 640 480 (by decide)
     (by decide) (by decide)⟩

end Gestos
